import Mathlib

/-!
# Verification of `rust-icmp` (`src/sys/unix.rs`)

Shallow embedding of the raw ICMP socket layer in `src/sys/unix.rs`.
Syscalls are modelled by passing their outcome (the value `cvt` would
produce) as an explicit argument, and each operation additionally returns
the socket value so that absence of field mutation is expressible.  The
`compat` module (address codec `into_inner`/`from_inner`, `cvt`,
`setsockopt`/`getsockopt`) is not part of the provided sources; those
pieces are modelled from the spec and marked as such.
-/

namespace RustIcmp

/-! ## Native constants

Values are the Linux `libc` ones, matching the `libc` crate used by the
source; the four constants the source hardcodes (`IPPROTO_ICMP`, `IP_TOS`,
`IPV6_UNICAST_HOPS`, `IPV6_TCLASS`) use the literal values of the source. -/

def AF_INET : Nat := 2
def AF_INET6 : Nat := 10
def SOCK_RAW : Nat := 3
def SOCK_CLOEXEC : Nat := 524288
/-- Hardcoded in `unix.rs` line 11: `const IPPROTO_ICMP: c_int = 1;`. -/
def IPPROTO_ICMP : Nat := 1
def IPPROTO_IP : Nat := 0
def IPPROTO_IPV6 : Nat := 41
def IP_TTL : Nat := 2
/-- Hardcoded in `unix.rs` line 13: `const IP_TOS: c_int = 1;`. -/
def IP_TOS : Nat := 1
/-- Hardcoded in `unix.rs` line 15: `const IPV6_UNICAST_HOPS: c_int = 16;`. -/
def IPV6_UNICAST_HOPS : Nat := 16
/-- Hardcoded in `unix.rs` line 16: `const IPV6_TCLASS: c_int = 67;`. -/
def IPV6_TCLASS : Nat := 67
def SOL_SOCKET : Nat := 1
def SO_BROADCAST : Nat := 6
/-- The errno value whose `io::Error` kind is `ErrorKind::Interrupted`. -/
def EINTR : Nat := 4

/-! ## Addresses and the address codec -/

/-- `std::net::IpAddr`: a tagged union of a v4 and a v6 payload; the
payload is kept as raw address bytes, which is all this layer touches. -/
inductive IpAddr where
  | V4 (bytes : List Nat)
  | V6 (bytes : List Nat)
deriving DecidableEq, Repr

/-- The native `sockaddr`: a fixed-size structure holding a family tag and
address bytes. -/
structure Sockaddr where
  sa_family : Nat
  sa_data : List Nat
deriving DecidableEq, Repr

/-- Size in bytes of the native `sockaddr` structure
(`mem::size_of::<c::sockaddr>()`). -/
def sockaddrSize : Nat := 16

/-- Modelled from the spec: the address codec `encode` direction
(`compat::IntoInner`, not in the provided sources).  "Output is an OS-level
fixed-size structure with a family tag matching the input variant." -/
def IpAddr.into_inner : IpAddr → Sockaddr
  | .V4 bytes => ⟨AF_INET, bytes⟩
  | .V6 bytes => ⟨AF_INET6, bytes⟩

/-- Modelled from the spec: the address codec `decode` direction
(`compat::FromInner`, not in the provided sources).  The variant is read
back from the family tag; decoding a mismatched-family buffer is
unspecified, here it falls to the v6 variant. -/
def IpAddr.from_inner (sa : Sockaddr) : IpAddr :=
  if sa.sa_family = AF_INET then .V4 sa.sa_data else .V6 sa.sa_data

/-! ## Errors and syscall outcomes -/

/-- An `std::io::Error` obtained from `last_os_error()`: it carries the
captured errno. -/
structure IOError where
  errno : Nat
deriving DecidableEq, Repr

/-- `err.kind() == ErrorKind::Interrupted` holds exactly for `EINTR`. -/
def IOError.interrupted (e : IOError) : Prop := e.errno = EINTR

instance (e : IOError) : Decidable e.interrupted := by
  unfold IOError.interrupted; infer_instance

/-- The outcome of `cvt` applied to a syscall return: a non-negative count
on success, otherwise the captured OS error. -/
abbrev SysRet := Except IOError Nat

/-! ## The socket structure and `connect` -/

/-- `struct Socket { fd, family, peer }` from `unix.rs`. -/
structure Socket where
  fd : Nat
  family : Nat
  peer : Sockaddr
deriving DecidableEq, Repr

/-- The family computed by `connect` from the address variant. -/
def familyOf : IpAddr → Nat
  | .V4 _ => AF_INET
  | .V6 _ => AF_INET6

/-- The argument triple of a `socket(2)` call. -/
structure SocketArgs where
  domain : Nat
  typ : Nat
  protocol : Nat
deriving DecidableEq, Repr

/-- The arguments `Socket::connect` passes to `socket(2)`:
`socket(family, SOCK_RAW | SOCK_CLOEXEC, IPPROTO_ICMP)`. -/
def connectArgs (addr : IpAddr) : SocketArgs :=
  ⟨familyOf addr, Nat.lor SOCK_RAW SOCK_CLOEXEC, IPPROTO_ICMP⟩

/-- `Socket::connect`, with the outcome of `cvt(socket(..))` passed in as
`ret`.  On success the struct is built with the returned descriptor, the
family derived from the variant, and the encoded peer. -/
def connect (addr : IpAddr) (ret : SysRet) : Except IOError Socket :=
  match ret with
  | .error e => .error e
  | .ok fd => .ok ⟨fd, familyOf addr, addr.into_inner⟩

/-! ## Receive and send

Each operation takes the outcome of its underlying (cvt-wrapped) syscall
as an argument and returns the socket value alongside the result; the
returned socket is built exactly as the source leaves `self`, i.e. the
method bodies contain no field assignment. -/

/-- `Socket::recv`: on success the count; on `ErrorKind::Interrupted`
failure `Ok(0)`; other errors propagate. -/
def Socket.recv (s : Socket) (bufLen : Nat) (ret : SysRet) :
    Socket × Except IOError Nat :=
  match ret with
  | .ok size => (s, .ok size)
  | .error e => if e.interrupted then (s, .ok 0) else (s, .error e)

/-- The argument triple `Socket::recv` passes to `recv(2)`:
`recv(self.fd, buf, buf.len(), 0)`. -/
def recvArgs (s : Socket) (bufLen : Nat) : Nat × Nat × Nat :=
  (s.fd, bufLen, 0)

/-- The outcome of the `recvfrom(2)` call as `Socket::recv_from` observes
it: on success the byte count, the content of the local `sockaddr`
buffer after the call, and the address length the OS reported through the
length out-parameter; otherwise the captured OS error.  On failure the OS
writes nothing, so the `sockaddr` buffer keeps its prior content. -/
inductive RecvFromRet where
  | ok (size : Nat) (finalPeer : Sockaddr) (reportedLen : Nat)
  | err (e : IOError)
deriving DecidableEq, Repr

/-- `Socket::recv_from`.  `initPeer` is the content of the local
`sockaddr` buffer before the call: the source obtains it from
`mem::uninitialized()`, so it is an unconstrained parameter here.  The
length out-parameter is passed as a temporary (`&mut (size_of_val(&peer)
as socklen_t)`) whose final value the source never reads, so `reportedLen`
is discarded.  On success, and likewise on the interrupted branch, the
sender address is decoded from the whole buffer via `from_inner`. -/
def Socket.recv_from (s : Socket) (initPeer : Sockaddr) (ret : RecvFromRet) :
    Socket × Except IOError (Nat × IpAddr) :=
  match ret with
  | .ok size finalPeer _reportedLen => (s, .ok (size, IpAddr.from_inner finalPeer))
  | .err e =>
    if e.interrupted then (s, .ok (0, IpAddr.from_inner initPeer))
    else (s, .error e)

/-- The argument record of a `sendto(2)` call. -/
structure SendtoArgs where
  fd : Nat
  len : Nat
  flags : Nat
  dest : Sockaddr
  destLen : Nat
deriving DecidableEq, Repr

/-- The arguments `Socket::send` passes to `sendto(2)`:
`sendto(self.fd, buf, buf.len(), 0, &self.peer, size_of_val(&self.peer))`. -/
def sendArgs (s : Socket) (buf : List Nat) : SendtoArgs :=
  ⟨s.fd, buf.length, 0, s.peer, sockaddrSize⟩

/-- `Socket::send`: the `?` operator propagates every error of
`cvt(sendto(..))` (interruption included); success returns the
OS-reported count. -/
def Socket.send (s : Socket) (buf : List Nat) (ret : SysRet) :
    Socket × Except IOError Nat :=
  match ret with
  | .ok n => (s, .ok n)
  | .error e => (s, .error e)

/-! ## The option codec

Option values travel to the OS as 4-byte signed integers
(`value as c_int`); `ttl()` reads the slot back as a `u32` and `qos()` as
a `u8` (the low byte). -/

/-- The `value as c_int` cast: a natural number truncated to 32 bits and
reinterpreted as a twos-complement signed value. -/
def toCInt (v : Nat) : Int :=
  if v % 2 ^ 32 < 2 ^ 31 then ((v % 2 ^ 32 : Nat) : Int)
  else ((v % 2 ^ 32 : Nat) : Int) - 2 ^ 32

/-- Reading a stored `c_int` slot back as a `u32` (raw 4-byte
reinterpretation). -/
def cIntToU32 (i : Int) : Nat := (i % 2 ^ 32).toNat

/-- Reading a stored `c_int` slot back as a `u8` (the low byte on a
little-endian host, which is what `getsockopt::<u8>` observes). -/
def cIntToU8 (i : Int) : Nat := (i % 2 ^ 32).toNat % 2 ^ 8

/-- Modelled from the spec: the faked OS option store the option
round-trip properties are stated against (`compat::setsockopt` /
`compat::getsockopt` are not in the provided sources) — a map from a
native (level, option) pair to the last `c_int` value set. -/
def OptionStore := Nat × Nat → Int

/-- Modelled from the spec: `compat::setsockopt` against the faked store —
records the value under its (level, option) key. -/
def setOpt (st : OptionStore) (level name : Nat) (value : Int) : OptionStore :=
  fun k => if k = (level, name) then value else st k

/-- Modelled from the spec: `compat::getsockopt` against the faked store —
returns what was last set for the (level, option) key. -/
def getOpt (st : OptionStore) (level name : Nat) : Int := st (level, name)

/-- Where a family-dispatched option call resolves: a native
(level, option) pair, or the `unreachable!()` abort arm. -/
inductive Dispatch where
  | call (level name : Nat)
  | abort
deriving DecidableEq, Repr

/-- The family dispatch shared by `set_ttl` and `ttl`. -/
def ttlDispatch (family : Nat) : Dispatch :=
  if family = AF_INET then .call IPPROTO_IP IP_TTL
  else if family = AF_INET6 then .call IPPROTO_IPV6 IPV6_UNICAST_HOPS
  else .abort

/-- The family dispatch shared by `set_qos` and `qos`. -/
def qosDispatch (family : Nat) : Dispatch :=
  if family = AF_INET then .call IPPROTO_IP IP_TOS
  else if family = AF_INET6 then .call IPPROTO_IPV6 IPV6_TCLASS
  else .abort

/-- The (level, option) pair used by `set_broadcast` and `broadcast`,
with no family dispatch. -/
def broadcastDispatch : Dispatch := .call SOL_SOCKET SO_BROADCAST

/-- `Socket::set_ttl` against the faked store; `none` is the
`unreachable!()` arm. -/
def Socket.set_ttl (s : Socket) (st : OptionStore) (ttl : Nat) :
    Socket × Option OptionStore :=
  match ttlDispatch s.family with
  | .call level name => (s, some (setOpt st level name (toCInt ttl)))
  | .abort => (s, none)

/-- `Socket::ttl` against the faked store. -/
def Socket.ttl (s : Socket) (st : OptionStore) : Socket × Option Nat :=
  match ttlDispatch s.family with
  | .call level name => (s, some (cIntToU32 (getOpt st level name)))
  | .abort => (s, none)

/-- `Socket::set_broadcast`: `broadcast as c_int` is 1 for true, 0 for
false. -/
def Socket.set_broadcast (s : Socket) (st : OptionStore) (broadcast : Bool) :
    Socket × OptionStore :=
  match broadcastDispatch with
  | .call level name => (s, setOpt st level name (if broadcast then 1 else 0))
  | .abort => (s, st)

/-- `Socket::broadcast`: reads the raw `c_int` and returns `raw != 0`. -/
def Socket.broadcast (s : Socket) (st : OptionStore) : Socket × Bool :=
  match broadcastDispatch with
  | .call level name => (s, decide (getOpt st level name ≠ 0))
  | .abort => (s, false)

/-- `Socket::set_qos` against the faked store; `none` is the
`unreachable!()` arm. -/
def Socket.set_qos (s : Socket) (st : OptionStore) (qos : Nat) :
    Socket × Option OptionStore :=
  match qosDispatch s.family with
  | .call level name => (s, some (setOpt st level name (toCInt qos)))
  | .abort => (s, none)

/-- `Socket::qos` against the faked store. -/
def Socket.qos (s : Socket) (st : OptionStore) : Socket × Option Nat :=
  match qosDispatch s.family with
  | .call level name => (s, some (cIntToU8 (getOpt st level name)))
  | .abort => (s, none)

/-! ## Destruction -/

/-- A call this layer makes to the OS during teardown. -/
inductive OsCall where
  | close (fd : Nat)
deriving DecidableEq, Repr

/-- `impl Drop for Socket`: one `close(self.fd)` call whose result
(`closeRet`) is bound to `_` and discarded.  The returned unit is the
value of `drop`; the list is the trace of OS calls made. -/
def Socket.dropSocket (s : Socket) (closeRet : Int) : Unit × List OsCall :=
  ((), [OsCall.close s.fd])

/-! ## Helper lemmas -/

/-- No method body assigns to a field of `self`: `recv` returns the socket
unchanged. -/
theorem recv_socket_eq (s : Socket) (bufLen : Nat) (ret : SysRet) :
    (s.recv bufLen ret).1 = s := by
  unfold Socket.recv
  split
  · rfl
  · split <;> rfl

/-- `recv_from` returns the socket unchanged. -/
theorem recv_from_socket_eq (s : Socket) (initPeer : Sockaddr) (ret : RecvFromRet) :
    (s.recv_from initPeer ret).1 = s := by
  unfold Socket.recv_from
  split
  · rfl
  · split <;> rfl

/-- `send` returns the socket unchanged. -/
theorem send_socket_eq (s : Socket) (buf : List Nat) (ret : SysRet) :
    (s.send buf ret).1 = s := by
  unfold Socket.send
  cases ret <;> rfl

/-- `set_ttl` returns the socket unchanged. -/
theorem set_ttl_socket_eq (s : Socket) (st : OptionStore) (v : Nat) :
    (s.set_ttl st v).1 = s := by
  unfold Socket.set_ttl; split <;> rfl

/-- `ttl` returns the socket unchanged. -/
theorem ttl_socket_eq (s : Socket) (st : OptionStore) :
    (s.ttl st).1 = s := by
  unfold Socket.ttl; split <;> rfl

/-- `set_broadcast` returns the socket unchanged. -/
theorem set_broadcast_socket_eq (s : Socket) (st : OptionStore) (b : Bool) :
    (s.set_broadcast st b).1 = s := rfl

/-- `broadcast` returns the socket unchanged. -/
theorem broadcast_socket_eq (s : Socket) (st : OptionStore) :
    (s.broadcast st).1 = s := rfl

/-- `set_qos` returns the socket unchanged. -/
theorem set_qos_socket_eq (s : Socket) (st : OptionStore) (v : Nat) :
    (s.set_qos st v).1 = s := by
  unfold Socket.set_qos; split <;> rfl

/-- `qos` returns the socket unchanged. -/
theorem qos_socket_eq (s : Socket) (st : OptionStore) :
    (s.qos st).1 = s := by
  unfold Socket.qos; split <;> rfl

/-- A successful `connect` yields exactly the struct built from the
returned descriptor, the derived family and the encoded peer. -/
theorem connect_ok (addr : IpAddr) (ret : SysRet) (s : Socket)
    (h : connect addr ret = .ok s) :
    ∃ fd, ret = .ok fd ∧ s = ⟨fd, familyOf addr, addr.into_inner⟩ := by
  cases ret with
  | error e => simp [connect] at h
  | ok fd =>
    refine ⟨fd, rfl, ?_⟩
    simp [connect] at h
    exact h.symm

/-- The `u32 -> c_int -> u32` round trip is the identity on `u32` values. -/
theorem cIntToU32_toCInt (v : Nat) (hv : v < 2 ^ 32) :
    cIntToU32 (toCInt v) = v := by
  unfold toCInt cIntToU32
  split <;> omega

/-- Reading back the key just set returns the value set. -/
theorem getOpt_setOpt (st : OptionStore) (level name : Nat) (value : Int) :
    getOpt (setOpt st level name value) level name = value := by
  simp [getOpt, setOpt]

/-! ## Claim theorems -/

/-- C2: for every buffer, `recv` and `recv_from` turn an interrupted
syscall failure into a zero-length success (`Ok(0)`, respectively
`Ok((0, address))`), never an error, while `send` propagates the
interruption error and never returns a silent zero-length success. -/
theorem C2_interruption_asymmetry (s : Socket) (bufLen : Nat)
    (initPeer : Sockaddr) (buf : List Nat) (e : IOError)
    (h : e.interrupted) :
    (s.recv bufLen (.error e)).2 = .ok 0 ∧
    (s.recv_from initPeer (.err e)).2 = .ok (0, IpAddr.from_inner initPeer) ∧
    (s.send buf (.error e)).2 = .error e := by
  refine ⟨?_, ?_, rfl⟩ <;> simp [Socket.recv, Socket.recv_from, h]

/-- Witness for C2 at a concrete socket, buffer and the `EINTR` error. -/
theorem C2_interruption_asymmetry_witness :
    IOError.interrupted ⟨EINTR⟩ ∧
    ((Socket.mk 3 AF_INET ⟨AF_INET, [127, 0, 0, 1]⟩).recv 8
      (.error ⟨EINTR⟩)).2 = .ok 0 :=
  ⟨by decide,
   (C2_interruption_asymmetry (Socket.mk 3 AF_INET ⟨AF_INET, [127, 0, 0, 1]⟩)
     8 ⟨AF_INET, [127, 0, 0, 1]⟩ [0] ⟨EINTR⟩ (by decide)).1⟩

/-- C3 (code evaluation at the failing input): `connect` requests
protocol number 1 for a v6 address — the same number as for a v4
address — instead of a protocol number appropriate to the IPv6 family;
the protocol argument does not depend on the family at all. -/
theorem C3_protocol_not_family_dispatched :
    (connectArgs (IpAddr.V6 [0, 0, 0, 0, 0, 0, 0, 0, 0, 0, 0, 0, 0, 0, 0, 1])).protocol = 1 ∧
    (connectArgs (IpAddr.V6 [0, 0, 0, 0, 0, 0, 0, 0, 0, 0, 0, 0, 0, 0, 0, 1])).protocol =
      (connectArgs (IpAddr.V4 [127, 0, 0, 1])).protocol :=
  ⟨rfl, rfl⟩

/-- C4 (code evaluation at the failing input): on an interrupted
`recvfrom`, `recv_from` decodes a sender address out of the local
`sockaddr` buffer the OS never wrote — the result varies with the junk
the uninitialized buffer happens to hold. -/
theorem C4_uninitialized_peer_decoded :
    ((Socket.mk 3 AF_INET ⟨AF_INET, [127, 0, 0, 1]⟩).recv_from
        ⟨AF_INET, [9, 9, 9, 9]⟩ (.err ⟨EINTR⟩)).2 =
      .ok (0, IpAddr.V4 [9, 9, 9, 9]) ∧
    ((Socket.mk 3 AF_INET ⟨AF_INET, [127, 0, 0, 1]⟩).recv_from
        ⟨AF_INET, [8, 8, 8, 8]⟩ (.err ⟨EINTR⟩)).2 =
      .ok (0, IpAddr.V4 [8, 8, 8, 8]) := by
  constructor <;> simp [Socket.recv_from, IpAddr.from_inner, IOError.interrupted, EINTR]

/-- C5: destroying a socket issues exactly one `close`, on exactly its
descriptor; the outcome of `close` is discarded (the result of `drop`
does not depend on it); and a socket coming out of any operation — with
any syscall outcome, errors included — still closes the same single
descriptor. -/
theorem C5_close_exactly_once (s : Socket) (closeRet : Int) :
    (s.dropSocket closeRet).2 = [OsCall.close s.fd] ∧
    ((s.dropSocket closeRet).2).length = 1 ∧
    (∀ r₁ r₂ : Int, s.dropSocket r₁ = s.dropSocket r₂) ∧
    (∀ bufLen ret c, ((s.recv bufLen ret).1.dropSocket c).2 = [OsCall.close s.fd]) ∧
    (∀ ip ret c, ((s.recv_from ip ret).1.dropSocket c).2 = [OsCall.close s.fd]) ∧
    (∀ buf ret c, ((s.send buf ret).1.dropSocket c).2 = [OsCall.close s.fd]) := by
  refine ⟨rfl, rfl, fun r₁ r₂ => rfl, ?_, ?_, ?_⟩
  · intro bufLen ret c; rw [recv_socket_eq]; rfl
  · intro ip ret c; rw [recv_from_socket_eq]; rfl
  · intro buf ret c; rw [send_socket_eq]; rfl

/-- C10: `recv_from` discards the address length the OS reports through
the length out-parameter (the whole result is independent of it), and on
every successful receive the sender is decoded from the entire
fixed-size `sockaddr` buffer. -/
theorem C10_reported_len_discarded (s : Socket) (initPeer : Sockaddr)
    (n : Nat) (finalPeer : Sockaddr) (l₁ l₂ : Nat) :
    s.recv_from initPeer (.ok n finalPeer l₁) =
      s.recv_from initPeer (.ok n finalPeer l₂) ∧
    (s.recv_from initPeer (.ok n finalPeer l₁)).2 =
      .ok (n, IpAddr.from_inner finalPeer) :=
  ⟨rfl, rfl⟩

/-- C1: on a socket constructed from a v4 address every option get/set
resolves to the IPv4 (level, option) pair — TTL to
(`IPPROTO_IP`, `IP_TTL`), type-of-service to (`IPPROTO_IP`, `IP_TOS` = 1);
on a socket from a v6 address to the IPv6 pair —
(`IPPROTO_IPV6`, `IPV6_UNICAST_HOPS` = 16) and
(`IPPROTO_IPV6`, `IPV6_TCLASS` = 67); `set_broadcast`/`broadcast` use
(`SOL_SOCKET`, `SO_BROADCAST`) regardless of family. -/
theorem C1_option_level_name (addr : IpAddr) (ret : SysRet) (s : Socket)
    (h : connect addr ret = .ok s) :
    ((∃ b, addr = .V4 b) →
      ttlDispatch s.family = .call IPPROTO_IP IP_TTL ∧
      qosDispatch s.family = .call IPPROTO_IP IP_TOS) ∧
    ((∃ b, addr = .V6 b) →
      ttlDispatch s.family = .call IPPROTO_IPV6 IPV6_UNICAST_HOPS ∧
      qosDispatch s.family = .call IPPROTO_IPV6 IPV6_TCLASS) ∧
    IP_TOS = 1 ∧ IPV6_UNICAST_HOPS = 16 ∧ IPV6_TCLASS = 67 ∧
    broadcastDispatch = .call SOL_SOCKET SO_BROADCAST := by
  obtain ⟨fd, -, rfl⟩ := connect_ok addr ret s h
  refine ⟨?_, ?_, rfl, rfl, rfl, rfl⟩
  · rintro ⟨b, rfl⟩; exact ⟨rfl, rfl⟩
  · rintro ⟨b, rfl⟩; exact ⟨rfl, rfl⟩

/-- Witness for C1 at a concrete v4 construction. -/
theorem C1_option_level_name_witness :
    connect (IpAddr.V4 [127, 0, 0, 1]) (.ok 3) =
      .ok ⟨3, AF_INET, ⟨AF_INET, [127, 0, 0, 1]⟩⟩ ∧
    ttlDispatch (Socket.mk 3 AF_INET ⟨AF_INET, [127, 0, 0, 1]⟩).family =
      .call IPPROTO_IP IP_TTL :=
  ⟨rfl,
   ((C1_option_level_name (IpAddr.V4 [127, 0, 0, 1]) (.ok 3) _ rfl).1
     ⟨[127, 0, 0, 1], rfl⟩).1⟩

/-- C6: a socket returned by `connect` has its family derived once from
the address variant (v4 gives `AF_INET`, v6 gives `AF_INET6`), its stored
peer encoding carries the same family tag, and no operation other than
construction changes the `fd`, `family` or `peer` fields. -/
theorem C6_fields_fixed (addr : IpAddr) (ret : SysRet) (s : Socket)
    (h : connect addr ret = .ok s) :
    s.family = familyOf addr ∧
    s.peer = addr.into_inner ∧
    s.peer.sa_family = s.family ∧
    ((∃ b, addr = .V4 b) → s.family = AF_INET) ∧
    ((∃ b, addr = .V6 b) → s.family = AF_INET6) ∧
    (∀ bufLen r, (s.recv bufLen r).1 = s) ∧
    (∀ ip r, (s.recv_from ip r).1 = s) ∧
    (∀ buf r, (s.send buf r).1 = s) ∧
    (∀ st v, (s.set_ttl st v).1 = s) ∧
    (∀ st, (s.ttl st).1 = s) ∧
    (∀ st b, (s.set_broadcast st b).1 = s) ∧
    (∀ st, (s.broadcast st).1 = s) ∧
    (∀ st v, (s.set_qos st v).1 = s) ∧
    (∀ st, (s.qos st).1 = s) := by
  obtain ⟨fd, -, rfl⟩ := connect_ok addr ret s h
  refine ⟨rfl, rfl, ?_, ?_, ?_, recv_socket_eq _, recv_from_socket_eq _,
    send_socket_eq _, set_ttl_socket_eq _, ttl_socket_eq _,
    set_broadcast_socket_eq _, broadcast_socket_eq _, set_qos_socket_eq _,
    qos_socket_eq _⟩
  · cases addr <;> rfl
  · rintro ⟨b, rfl⟩; rfl
  · rintro ⟨b, rfl⟩; rfl

/-- Witness for C6 at a concrete v4 construction. -/
theorem C6_fields_fixed_witness :
    connect (IpAddr.V4 [127, 0, 0, 1]) (.ok 3) =
      .ok ⟨3, AF_INET, ⟨AF_INET, [127, 0, 0, 1]⟩⟩ ∧
    (Socket.mk 3 AF_INET ⟨AF_INET, [127, 0, 0, 1]⟩).peer.sa_family =
      (Socket.mk 3 AF_INET ⟨AF_INET, [127, 0, 0, 1]⟩).family :=
  ⟨rfl, (C6_fields_fixed (IpAddr.V4 [127, 0, 0, 1]) (.ok 3) _ rfl).2.2.1⟩

/-- C7: every socket `connect` produces has family `AF_INET` or
`AF_INET6`, so the `unreachable!()` arm of the family dispatch of
`set_ttl`, `ttl`, `set_qos` and `qos` is never taken; any other family
reaching the dispatch hits the abort arm. -/
theorem C7_unreachable_never_taken (addr : IpAddr) (ret : SysRet) (s : Socket)
    (h : connect addr ret = .ok s) :
    (s.family = AF_INET ∨ s.family = AF_INET6) ∧
    ttlDispatch s.family ≠ .abort ∧
    qosDispatch s.family ≠ .abort ∧
    (∀ st v, ((s.set_ttl st v).2).isSome = true) ∧
    (∀ st, ((s.ttl st).2).isSome = true) ∧
    (∀ st v, ((s.set_qos st v).2).isSome = true) ∧
    (∀ st, ((s.qos st).2).isSome = true) ∧
    (∀ f, f ≠ AF_INET → f ≠ AF_INET6 →
      ttlDispatch f = .abort ∧ qosDispatch f = .abort) := by
  obtain ⟨fd, -, rfl⟩ := connect_ok addr ret s h
  have habort : ∀ f, f ≠ AF_INET → f ≠ AF_INET6 →
      ttlDispatch f = .abort ∧ qosDispatch f = .abort := by
    intro f h1 h2
    exact ⟨by simp [ttlDispatch, h1, h2], by simp [qosDispatch, h1, h2]⟩
  cases addr with
  | V4 b =>
    exact ⟨Or.inl rfl, fun hc => Dispatch.noConfusion hc,
      fun hc => Dispatch.noConfusion hc, fun st v => rfl, fun st => rfl,
      fun st v => rfl, fun st => rfl, habort⟩
  | V6 b =>
    exact ⟨Or.inr rfl, fun hc => Dispatch.noConfusion hc,
      fun hc => Dispatch.noConfusion hc, fun st v => rfl, fun st => rfl,
      fun st v => rfl, fun st => rfl, habort⟩

/-- Witness for C7 at a concrete v6 construction. -/
theorem C7_unreachable_never_taken_witness :
    connect (IpAddr.V6 [0, 0, 0, 0, 0, 0, 0, 0, 0, 0, 0, 0, 0, 0, 0, 1]) (.ok 4) =
      .ok ⟨4, AF_INET6, ⟨AF_INET6, [0, 0, 0, 0, 0, 0, 0, 0, 0, 0, 0, 0, 0, 0, 0, 1]⟩⟩ ∧
    ttlDispatch
      (Socket.mk 4 AF_INET6
        ⟨AF_INET6, [0, 0, 0, 0, 0, 0, 0, 0, 0, 0, 0, 0, 0, 0, 0, 1]⟩).family ≠ .abort :=
  ⟨rfl,
   (C7_unreachable_never_taken
     (IpAddr.V6 [0, 0, 0, 0, 0, 0, 0, 0, 0, 0, 0, 0, 0, 0, 0, 1])
     (.ok 4) _ rfl).2.1⟩

/-- C8: `send` passes the full buffer length to `sendto` and targets
exactly the peer stored at construction (the encoding of the `connect`
address), on the stored descriptor; on success the OS-reported count is
returned. -/
theorem C8_send_targets_fixed_peer (addr : IpAddr) (ret : SysRet)
    (s : Socket) (h : connect addr ret = .ok s) (buf : List Nat) :
    (sendArgs s buf).len = buf.length ∧
    (sendArgs s buf).dest = addr.into_inner ∧
    (sendArgs s buf).dest = s.peer ∧
    (sendArgs s buf).fd = s.fd ∧
    ∀ n, (s.send buf (.ok n)).2 = .ok n := by
  obtain ⟨fd, -, rfl⟩ := connect_ok addr ret s h
  exact ⟨rfl, rfl, rfl, rfl, fun n => rfl⟩

/-- Witness for C8 at a concrete v4 construction and 8-byte buffer. -/
theorem C8_send_targets_fixed_peer_witness :
    connect (IpAddr.V4 [127, 0, 0, 1]) (.ok 5) =
      .ok ⟨5, AF_INET, ⟨AF_INET, [127, 0, 0, 1]⟩⟩ ∧
    (sendArgs ⟨5, AF_INET, ⟨AF_INET, [127, 0, 0, 1]⟩⟩
      [1, 2, 3, 4, 5, 6, 7, 8]).dest = ⟨AF_INET, [127, 0, 0, 1]⟩ :=
  ⟨rfl,
   (C8_send_targets_fixed_peer (IpAddr.V4 [127, 0, 0, 1]) (.ok 5) _ rfl
     [1, 2, 3, 4, 5, 6, 7, 8]).2.1⟩

/-- C9: against the faked OS option store, `set_ttl(V)` then `ttl()`
returns `V` for every `u32` value `V`, and `set_broadcast(b)` then
`broadcast()` returns `b` for both booleans (encoded as zero/non-zero
`c_int` on the wire). -/
theorem C9_option_roundtrip (addr : IpAddr) (ret : SysRet) (s : Socket)
    (h : connect addr ret = .ok s) (st : OptionStore) (v : Nat)
    (hv : v < 2 ^ 32) :
    (∃ st2, (s.set_ttl st v).2 = some st2 ∧ (s.ttl st2).2 = some v) ∧
    (s.broadcast (s.set_broadcast st true).2).2 = true ∧
    (s.broadcast (s.set_broadcast st false).2).2 = false := by
  obtain ⟨fd, -, rfl⟩ := connect_ok addr ret s h
  refine ⟨?_, ?_, ?_⟩
  · cases addr with
    | V4 b =>
      refine ⟨setOpt st IPPROTO_IP IP_TTL (toCInt v), rfl, ?_⟩
      show some (cIntToU32 (getOpt (setOpt st IPPROTO_IP IP_TTL (toCInt v))
        IPPROTO_IP IP_TTL)) = some v
      rw [getOpt_setOpt, cIntToU32_toCInt v hv]
    | V6 b =>
      refine ⟨setOpt st IPPROTO_IPV6 IPV6_UNICAST_HOPS (toCInt v), rfl, ?_⟩
      show some (cIntToU32 (getOpt (setOpt st IPPROTO_IPV6 IPV6_UNICAST_HOPS
        (toCInt v)) IPPROTO_IPV6 IPV6_UNICAST_HOPS)) = some v
      rw [getOpt_setOpt, cIntToU32_toCInt v hv]
  · show decide (getOpt (setOpt st SOL_SOCKET SO_BROADCAST 1)
      SOL_SOCKET SO_BROADCAST ≠ 0) = true
    rw [getOpt_setOpt]; decide
  · show decide (getOpt (setOpt st SOL_SOCKET SO_BROADCAST 0)
      SOL_SOCKET SO_BROADCAST ≠ 0) = false
    rw [getOpt_setOpt]; decide

/-- Witness for C9 at a concrete v4 construction, the all-zero store and
TTL value 7. -/
theorem C9_option_roundtrip_witness :
    (7 : Nat) < 2 ^ 32 ∧
    ((Socket.mk 3 AF_INET ⟨AF_INET, [127, 0, 0, 1]⟩).broadcast
      ((Socket.mk 3 AF_INET ⟨AF_INET, [127, 0, 0, 1]⟩).set_broadcast
        (fun _ => 0) true).2).2 = true :=
  ⟨by norm_num,
   (C9_option_roundtrip (IpAddr.V4 [127, 0, 0, 1]) (.ok 3) _ rfl
     (fun _ => 0) 7 (by norm_num)).2.1⟩

end RustIcmp
